import Mathlib

/-!
Shallow embedding of the prysma ingestion / conciliation core
(`backend/app/services/parser.py`, `backend/app/services/conciliation.py`)
together with the record model (`backend/app/models/receivable.py`,
`backend/app/models/payment.py`).

Modelling conventions:
* Python `Decimal` amounts are embedded as exact rationals (`ℚ`).  `Decimal`
  addition/subtraction/abs are exact; the single division in the scorer is
  modelled exactly (context rounding at the 28th significant digit is far
  below the 0.1% / 2% / 5% threshold granularity for any monetary input).
  Non-finite `Decimal` literals (`Infinity`, `NaN`) are outside this model.
* Python `bytes` are `List (Fin 256)`; decoded text is `List Char` / `String`.
* Python `date` values are `PDate` triples; `date` subtraction in days is the
  standard proleptic-Gregorian civil-day count.
* Per-row error dictionaries are abstracted to their 1-based row numbers
  (the message text is display-only and never inspected by the code).
* `str.upper` / `str.lower` are modelled with Lean's ASCII case maps; all
  header/stop-word tokens compared case-insensitively by the code are ASCII.
-/

set_option maxRecDepth 200000

/-! ## Python string primitives -/

/-- Code points that `str.isspace` accepts in the Latin-1 range
(`\t \n \v \f \r \x1c \x1d \x1e \x1f space \x85 \xa0`). -/
def pySpaceCodes : List Nat := [9, 10, 11, 12, 13, 28, 29, 30, 31, 32, 133, 160]

def pyIsSpace (c : Char) : Bool := pySpaceCodes.contains c.toNat

/-- Python `str.strip()` on a character list. -/
def pyStrip (l : List Char) : List Char :=
  ((l.dropWhile pyIsSpace).reverse.dropWhile pyIsSpace).reverse

def pyStripS (s : String) : String := String.mk (pyStrip s.toList)

/-- Python `str.isdigit` for single characters in the Latin-1 range:
ASCII digits plus the superscripts ¹ ² ³ (U+00B9, U+00B2, U+00B3). -/
def pyIsDigit (c : Char) : Bool :=
  c.isDigit || c.toNat = 0xB2 || c.toNat = 0xB3 || c.toNat = 0xB9

/-- Python `str.isdigit` on a whole string: nonempty and all digit chars. -/
def pyIsDigitStr (l : List Char) : Bool := !l.isEmpty && l.all pyIsDigit

/-- Base-10 value of an ASCII digit string (leading zeros allowed),
i.e. Python `int(s)` on a plain digit string. -/
def digitsToNat (l : List Char) : Nat :=
  l.foldl (fun acc c => acc * 10 + (c.toNat - '0'.toNat)) 0

/-- Python slice `l[a:b]` (with `0 ≤ a ≤ b` within range, as used here). -/
def pySlice (l : List Char) (a b : Nat) : List Char := (l.drop a).take (b - a)

/-- Python indexing `l[i]`; every use below is guarded by a length check, so
the default is unreachable. -/
def pyChar (l : List Char) (i : Nat) : Char := l.getD i ' '

/-- Tokens between whitespace characters (empties kept, filtered below). -/
def wsTokens : List Char → List (List Char)
  | [] => [[]]
  | c :: rest =>
    if pyIsSpace c then [] :: wsTokens rest
    else
      match wsTokens rest with
      | [] => [[c]]
      | l :: ls => (c :: l) :: ls

/-- Python `str.split()` (no argument): split on whitespace runs, drop empties. -/
def pySplitWhitespace (s : String) : List String :=
  ((wsTokens s.toList).filter (· ≠ [])).map String.mk

/-- Python `str.replace` (left-to-right, non-overlapping); every pattern used
in this file is nonempty.  The structural fuel equals the input length and
every step consumes at least one character, so it never runs out. -/
def pyReplaceAux (pat rep : List Char) : Nat → List Char → List Char
  | _, [] => []
  | 0, l => l
  | fuel + 1, c :: rest =>
    if ¬pat.isEmpty ∧ (c :: rest).take pat.length = pat then
      rep ++ pyReplaceAux pat rep fuel (rest.drop (pat.length - 1))
    else c :: pyReplaceAux pat rep fuel rest

def pyReplace (pat rep l : List Char) : List Char :=
  pyReplaceAux pat rep l.length l

/-- Python `str.upper` / `str.lower` on ASCII text. -/
def pyUpperS (s : String) : String := String.mk (s.toList.map Char.toUpper)

def pyLowerS (s : String) : String := String.mk (s.toList.map Char.toLower)

/-- Python `str.zfill`: left-pad with `'0'` to the given width
(no sign handling needed: inputs here are never signed). -/
def pyZfill (l : List Char) (width : Nat) : List Char :=
  List.replicate (width - l.length) '0' ++ l

/-- Truthiness of a Python `Optional[str]`: `None` and `""` are falsy. -/
def pyTruthy : Option String → Bool
  | none => false
  | some s => s ≠ ""

/-- Python substring containment `sub in s`. -/
def pyContains (s sub : List Char) : Bool :=
  (List.range (s.length + 1)).any fun i => (s.drop i).take sub.length = sub

def pyContainsS (s sub : String) : Bool := pyContains s.toList sub.toList

/-! ## Calendar dates

`PDate` embeds `datetime.date`; `toDays` is the proleptic-Gregorian civil-day
number, so `(d1 - d2).days = d1.toDays - d2.toDays`. -/

structure PDate where
  year : Nat
  month : Nat
  day : Nat
deriving DecidableEq, Repr

def PDate.toDays (dt : PDate) : Int :=
  let y : Nat := dt.year - (if dt.month ≤ 2 then 1 else 0)
  let era : Nat := y / 400
  let yoe : Nat := y % 400
  let mp : Nat := (dt.month + 9) % 12
  let doy : Nat := (153 * mp + 2) / 5 + dt.day - 1
  let doe : Nat := yoe * 365 + yoe / 4 - yoe / 100 + doy
  (era * 146097 + doe : Int) - 719468

def isLeapYear (y : Nat) : Bool := y % 4 = 0 && (y % 100 ≠ 0 || y % 400 = 0)

def daysInMonth (y m : Nat) : Nat :=
  if m = 2 then (if isLeapYear y then 29 else 28)
  else if m = 4 ∨ m = 6 ∨ m = 9 ∨ m = 11 then 30
  else 31

/-- Validity predicate enforced by the `datetime.date` constructor. -/
def validDate (y m d : Nat) : Bool :=
  1 ≤ y && y ≤ 9999 && 1 ≤ m && m ≤ 12 && 1 ≤ d && d ≤ daysInMonth y m

/-! ## Record model (`models/receivable.py`, `models/payment.py`)

Only the fields the parser / conciliation core reads or writes are embedded;
`id` is the engine-assigned primary key (a UUID string in the source). -/

structure Receivable where
  id : String := ""
  debtor_cnpj : Option String := none
  debtor_name : Option String := none
  face_value : ℚ := 0
  due_date : Option PDate := none
  status : String := "pending"
  source : String := "csv"
deriving DecidableEq, Repr

structure Payment where
  id : String := ""
  payer_cnpj : Option String := none
  payer_name : Option String := none
  amount : ℚ := 0
  date : Option PDate := none
  bank_reference : Option String := none
  match_status : String := "unmatched"
  source : String := "csv"
deriving DecidableEq, Repr

/-! ## Confidence scorer (`conciliation.py`, `_match_confidence`) -/

def VALUE_EXACT_TOLERANCE : ℚ := 1 / 1000
def VALUE_CLOSE_TOLERANCE : ℚ := 2 / 100
def VALUE_FUZZY_TOLERANCE : ℚ := 5 / 100

/-- `value_pct = abs(face - amount) / face`. -/
def value_pct (r : Receivable) (p : Payment) : ℚ :=
  |r.face_value - p.amount| / r.face_value

/-- The value component of the score; `none` is the `return 0` hard veto when
the relative difference exceeds every tolerance tier. -/
def valuePoints (r : Receivable) (p : Payment) : Option Nat :=
  if value_pct r p ≤ VALUE_EXACT_TOLERANCE then some 40
  else if value_pct r p ≤ VALUE_CLOSE_TOLERANCE then some 30
  else if value_pct r p ≤ VALUE_FUZZY_TOLERANCE then some 15
  else none

/-- `receivable.debtor_cnpj and payment.payer_cnpj` (truthiness) followed by
equality. -/
def cnpjMatched (r : Receivable) (p : Payment) : Bool :=
  pyTruthy r.debtor_cnpj && pyTruthy p.payer_cnpj &&
    r.debtor_cnpj == p.payer_cnpj

def cnpjPoints (r : Receivable) (p : Payment) : Nat :=
  if cnpjMatched r p then 35 else 0

def STOPWORDS_RECV : List String :=
  ["LTDA", "ME", "SA", "EIRELI", "EPP", "S/A", "S.A.", "DE", "DO", "DA", "E", "-"]

def STOPWORDS_PAY : List String := STOPWORDS_RECV ++ ["PIX", "TED", "DOC"]

/-- `set(name.upper().strip().split()) - stopwords`, as a duplicate-free list
(only cardinalities of this set and its intersections are ever used). -/
def nameWordSet (s : String) (stop : List String) : List String :=
  ((pySplitWhitespace (pyStripS (pyUpperS s))).dedup).filter (fun w => w ∉ stop)

def namePoints (r : Receivable) (p : Payment) : Nat :=
  if cnpjMatched r p || !pyTruthy r.debtor_name || !pyTruthy p.payer_name then 0
  else
    let recv_words := nameWordSet (r.debtor_name.getD "") STOPWORDS_RECV
    let pay_words := nameWordSet (p.payer_name.getD "") STOPWORDS_PAY
    if recv_words ≠ [] ∧ pay_words ≠ [] then
      let common := recv_words ∩ pay_words
      if 2 ≤ common.length then 10
      else if common.length = 1 ∧ recv_words.length ≤ 3 then 5
      else 0
    else 0

def datePoints (r : Receivable) (p : Payment) : Nat :=
  match r.due_date, p.date with
  | some d1, some d2 =>
    let delta := (d1.toDays - d2.toDays).natAbs
    if delta = 0 then 25
    else if delta ≤ 3 then 18
    else if delta ≤ 7 then 12
    else if delta ≤ 15 then 6
    else if delta ≤ 30 then 3
    else 0
  | _, _ => 0

/-- `_match_confidence(receivable, payment)`: 0 on zero face value, 0 on the
value hard veto, otherwise the component sum capped at 100. -/
def match_confidence (r : Receivable) (p : Payment) : Nat :=
  if r.face_value = 0 then 0
  else
    match valuePoints r p with
    | none => 0
    | some v => min (v + cnpjPoints r p + namePoints r p + datePoints r p) 100

/-! ## Conciliation engine, pure matching core (`run_conciliation`)

The database round-trips, run bookkeeping and status mutations are not part
of the matching algorithm; the core embedded here is: score the full cross
product, discard zero scores, stable-sort by confidence descending, then
greedily claim.  Python's stable `list.sort` is modelled by insertion sort
(any two stable sorts agree extensionally on a total preorder). -/

abbrev Cand := Receivable × Payment × Nat

def potential_matches (receivables : List Receivable) (payments : List Payment) :
    List Cand :=
  receivables.flatMap fun recv =>
    payments.filterMap fun pay =>
      let confidence := match_confidence recv pay
      if 0 < confidence then some (recv, pay, confidence) else none

/-- Sort key of `potential_matches.sort(key=lambda x: x[2], reverse=True)`. -/
def confGe (a b : Cand) : Prop := b.2.2 ≤ a.2.2

instance : DecidableRel confGe := fun a b =>
  inferInstanceAs (Decidable (b.2.2 ≤ a.2.2))

instance : IsTotal Cand confGe := ⟨fun a b => Nat.le_total b.2.2 a.2.2⟩

instance : IsTrans Cand confGe := ⟨fun _ _ _ h1 h2 => Nat.le_trans h2 h1⟩

def sorted_matches (rs : List Receivable) (ps : List Payment) : List Cand :=
  List.insertionSort confGe (potential_matches rs ps)

/-- One entry of the `matches` result list (dates kept structured instead of
ISO-formatted). -/
structure MatchEntry where
  receivable_id : String
  payment_id : String
  debtor_cnpj : Option String
  debtor_name : Option String
  payer_name : Option String
  receivable_value : ℚ
  payment_value : ℚ
  due_date : Option PDate
  payment_date : Option PDate
  confidence : Nat
deriving DecidableEq, Repr

def mkMatchEntry (recv : Receivable) (pay : Payment) (confidence : Nat) :
    MatchEntry :=
  ⟨recv.id, pay.id, recv.debtor_cnpj, recv.debtor_name, pay.payer_name,
    recv.face_value, pay.amount, recv.due_date, pay.date, confidence⟩

/-- The greedy claiming walk with its two claimed-identifier sets. -/
def greedy_matches : List Cand → List String → List String → List MatchEntry
  | [], _, _ => []
  | (recv, pay, confidence) :: rest, matched_receivables, matched_payments =>
    if recv.id ∈ matched_receivables ∨ pay.id ∈ matched_payments then
      greedy_matches rest matched_receivables matched_payments
    else
      mkMatchEntry recv pay confidence ::
        greedy_matches rest (recv.id :: matched_receivables)
          (pay.id :: matched_payments)

def conciliation_matches (rs : List Receivable) (ps : List Payment) :
    List MatchEntry :=
  greedy_matches (sorted_matches rs ps) [] []

/-! ## Byte decoding (the `content.decode(encoding)` fallback loops)

Bytes are `Fin 256`; a decoder returns `none` exactly when Python's
`bytes.decode` raises `UnicodeDecodeError` for that codec. -/

abbrev Byte := Fin 256

/-- Latin-1 (ISO-8859-1) maps byte `n` to code point `n` and accepts every
byte sequence. -/
def latin1Decode (bs : List Byte) : List Char :=
  bs.map fun b => Char.ofNat b.val

def utf8Cont (b : Byte) : Bool := 0x80 ≤ b.val && b.val < 0xC0

/-- Strict (RFC 3629) UTF-8 decoding, as Python's `utf-8` codec: rejects
stray continuation bytes, overlong encodings, surrogate code points and
values above U+10FFFF. -/
def utf8Decode : List Byte → Option (List Char)
  | [] => some []
  | b :: rest =>
    if b.val < 0x80 then
      (utf8Decode rest).map (Char.ofNat b.val :: ·)
    else if b.val < 0xC2 then none
    else if b.val < 0xE0 then
      match rest with
      | c1 :: r =>
        if utf8Cont c1 then
          (utf8Decode r).map
            (Char.ofNat ((b.val - 0xC0) * 64 + (c1.val - 0x80)) :: ·)
        else none
      | _ => none
    else if b.val < 0xF0 then
      match rest with
      | c1 :: c2 :: r =>
        if utf8Cont c1 && utf8Cont c2
            && !(b.val = 0xE0 && c1.val < 0xA0)
            && !(b.val = 0xED && 0xA0 ≤ c1.val) then
          (utf8Decode r).map
            (Char.ofNat ((b.val - 0xE0) * 4096 + (c1.val - 0x80) * 64
              + (c2.val - 0x80)) :: ·)
        else none
      | _ => none
    else if b.val < 0xF5 then
      match rest with
      | c1 :: c2 :: c3 :: r =>
        if utf8Cont c1 && utf8Cont c2 && utf8Cont c3
            && !(b.val = 0xF0 && c1.val < 0x90)
            && !(b.val = 0xF4 && 0x90 ≤ c1.val) then
          (utf8Decode r).map
            (Char.ofNat ((b.val - 0xF0) * 262144 + (c1.val - 0x80) * 4096
              + (c2.val - 0x80) * 64 + (c3.val - 0x80)) :: ·)
        else none
      | _ => none
    else none

/-- The Windows-1252 mapping for bytes 0x80–0x9F; the five bytes absent here
(0x81, 0x8D, 0x8F, 0x90, 0x9D) are undefined and make the codec fail. -/
def cp1252Table : List (Nat × Nat) :=
  [(0x80, 0x20AC), (0x82, 0x201A), (0x83, 0x0192), (0x84, 0x201E),
   (0x85, 0x2026), (0x86, 0x2020), (0x87, 0x2021), (0x88, 0x02C6),
   (0x89, 0x2030), (0x8A, 0x0160), (0x8B, 0x2039), (0x8C, 0x0152),
   (0x8E, 0x017D), (0x91, 0x2018), (0x92, 0x2019), (0x93, 0x201C),
   (0x94, 0x201D), (0x95, 0x2022), (0x96, 0x2013), (0x97, 0x2014),
   (0x98, 0x02DC), (0x99, 0x2122), (0x9A, 0x0161), (0x9B, 0x203A),
   (0x9C, 0x0153), (0x9E, 0x017E), (0x9F, 0x0178)]

def cp1252DecodeByte (b : Byte) : Option Char :=
  if b.val < 0x80 ∨ 0xA0 ≤ b.val then some (Char.ofNat b.val)
  else (cp1252Table.lookup b.val).map Char.ofNat

def cp1252Decode (bs : List Byte) : Option (List Char) :=
  bs.mapM cp1252DecodeByte

/-- The `for encoding in [...]: try: ... except UnicodeDecodeError: continue`
loop: first succeeding codec wins; `none` is the loop's `else` clause. -/
def tryEncodings : List (List Byte → Option (List Char)) → List Byte →
    Option (List Char)
  | [], _ => none
  | e :: es, content =>
    match e content with
    | some text => some text
    | none => tryEncodings es content

/-- Encoding chain of `parse_csv_content`: `["utf-8", "latin-1", "cp1252"]`. -/
def csvDecode (content : List Byte) : Option (List Char) :=
  tryEncodings [utf8Decode, fun bs => some (latin1Decode bs), cp1252Decode]
    content

/-- Encoding chain of `_detect_cnab_format`, `parse_cnab240_content` and
`parse_cnab400_content`: `["latin-1", "cp1252", "utf-8"]`. -/
def cnabDecode (content : List Byte) : Option (List Char) :=
  tryEncodings [fun bs => some (latin1Decode bs), cp1252Decode, utf8Decode]
    content

/-! ## Line handling shared by the CNAB parsers -/

/-- `text.replace("\r\n", "\n")` (left-to-right, non-overlapping). -/
def replaceCRLF : List Char → List Char
  | '\r' :: '\n' :: rest => '\n' :: replaceCRLF rest
  | c :: rest => c :: replaceCRLF rest
  | [] => []

/-- `text.replace("\r", "\n")`. -/
def replaceCR (l : List Char) : List Char :=
  l.map fun c => if c = '\r' then '\n' else c

/-- Python `str.split("\n")` (note `"".split("\n") == [""]`). -/
def splitOnNL : List Char → List (List Char)
  | [] => [[]]
  | '\n' :: rest => [] :: splitOnNL rest
  | c :: rest =>
    match splitOnNL rest with
    | [] => [[c]]
    | l :: ls => (c :: l) :: ls

/-- `[l for l in text.replace(...).replace(...).split("\n") if l.strip()]`. -/
def cnabLines (text : List Char) : List (List Char) :=
  (splitOnNL (replaceCR (replaceCRLF text))).filter fun l => pyStrip l ≠ []

/-! ## CNAB field decoding (`_cnab_parse_value`, `_cnab_parse_date`,
`_cnab_extract_cnpj`) -/

/-- Occurrence codes meaning "paid/settled". -/
def CNAB_PAID_CODES : List String := ["06", "07", "10", "17"]

/-- `_cnab_parse_value`.  Returns `Decimal("0")` on an empty or non-digit
field; `none` models the uncaught exception raised when the stripped digit
string is too short for the slice `raw[:-decimals]` (so `int("")` fails) or
contains a non-ASCII digit character (so `int`/`Decimal` fail). -/
def cnab_parse_value (raw : List Char) (decimals : Nat := 2) : Option ℚ :=
  let r := pyStrip raw
  if !pyIsDigitStr r then some 0
  else
    let integer_part := if decimals ≠ 0 then r.take (r.length - decimals) else r
    let decimal_part := if decimals ≠ 0 then r.drop (r.length - decimals) else []
    if integer_part.isEmpty || !integer_part.all Char.isDigit
        || !decimal_part.all Char.isDigit then none
    else
      some ((digitsToNat integer_part : ℚ)
        + digitsToNat decimal_part / 10 ^ decimal_part.length)

/-- `_cnab_parse_date`: DDMMYYYY or DDMMYY digit strings, all-zero meaning
absent; `strptime`'s `%y` maps 00–68 to 2000–2068 and 69–99 to 1969–1999;
any range-invalid date is swallowed to `None`. -/
def cnab_parse_date (raw : List Char) : Option PDate :=
  let r := pyStrip raw
  if r.isEmpty ∨ r = "00000000".toList ∨ r = "000000".toList
      ∨ !pyIsDigitStr r then none
  else if r.length = 8 then
    if r.all Char.isDigit then
      let d := digitsToNat (r.take 2)
      let m := digitsToNat (pySlice r 2 4)
      let y := digitsToNat (pySlice r 4 8)
      if validDate y m d then some ⟨y, m, d⟩ else none
    else none
  else if r.length = 6 then
    if r.all Char.isDigit then
      let d := digitsToNat (r.take 2)
      let m := digitsToNat (pySlice r 2 4)
      let yy := digitsToNat (pySlice r 4 6)
      let y := if yy ≤ 68 then 2000 + yy else 1900 + yy
      if validDate y m d then some ⟨y, m, d⟩ else none
    else none
  else none

/-- `_cnab_extract_cnpj`: `None` on empty / all-zero fields, otherwise the
stripped text zero-padded to 11 (CPF) or 14 (CNPJ) characters. -/
def cnab_extract_cnpj (raw : List Char) : Option String :=
  let r := pyStrip raw
  if r.isEmpty ∨ r.all (· = '0') then none
  else
    let digits := r.dropWhile (· = '0')
    if digits.isEmpty then none
    else if r.length ≤ 11 then some (String.mk (pyZfill r 11))
    else some (String.mk (pyZfill r 14))

def stripS (l : List Char) : String := String.mk (pyStrip l)

/-! ## CNAB 240 parser (`parse_cnab240_content`) -/

/-- The buffered title ("T") segment awaiting its settlement ("U") segment. -/
structure SegT where
  ocorrencia : String
  nosso_numero : String
  numero_documento : String
  vencimento : Option PDate
  valor_titulo : ℚ
  payer_cnpj : Option String
  payer_name : Option String
  line : Nat
deriving DecidableEq, Repr

/-- Result triple of every parser: record lists plus 1-based error rows. -/
structure ParseResult where
  receivables : List Receivable
  payments : List Payment
  errors : List Nat
deriving DecidableEq, Repr

/-- The `for line_num, line in enumerate(lines, 1)` loop of
`parse_cnab240_content`, with the `seg_t` buffer threaded through.  The
unused Python locals (`tipo_inscricao`, `juros_multa`, `desconto`) are kept
only where their evaluation can raise (the two value parses in the "U"
branch); a failed field parse records the row error and clears the buffer,
exactly as the `try/except/finally` does. -/
def cnab240Go : Option SegT → Nat → List (List Char) → ParseResult
  | _, _, [] => ⟨[], [], []⟩
  | seg_t, line_num, line :: rest =>
    if line.length < 240 then cnab240Go seg_t (line_num + 1) rest
    else if pyChar line 7 ≠ '3' then cnab240Go seg_t (line_num + 1) rest
    else
      let segmento := (pyChar line 13).toUpper
      if segmento = 'T' then
        match cnab_parse_value (pySlice line 81 96) with
        | none =>
          let res := cnab240Go none (line_num + 1) rest
          ⟨res.receivables, res.payments, line_num :: res.errors⟩
        | some valor_titulo =>
          let nome := stripS (pySlice line 148 178)
          let st : SegT :=
            { ocorrencia := stripS (pySlice line 15 17)
              nosso_numero := stripS (pySlice line 40 48)
              numero_documento := stripS (pySlice line 58 68)
              vencimento := cnab_parse_date (pySlice line 73 81)
              valor_titulo := valor_titulo
              payer_cnpj := cnab_extract_cnpj (pySlice line 133 148)
              payer_name := if nome ≠ "" then some nome else none
              line := line_num }
          cnab240Go (some st) (line_num + 1) rest
      else if segmento = 'U' then
        match seg_t with
        | none => cnab240Go none (line_num + 1) rest
        | some st =>
          match cnab_parse_value (pySlice line 77 92),
              cnab_parse_value (pySlice line 17 32),
              cnab_parse_value (pySlice line 32 47) with
          | some valor_pago, some _juros_multa, some _desconto =>
            let data_ocorrencia := cnab_parse_date (pySlice line 137 145)
            let data_credito := cnab_parse_date (pySlice line 145 153)
            let is_paid := st.ocorrencia ∈ CNAB_PAID_CODES
            let recv : Receivable :=
              { debtor_cnpj := st.payer_cnpj
                debtor_name := st.payer_name
                face_value := st.valor_titulo
                due_date := st.vencimento
                status := if is_paid then "conciliated" else "pending"
                source := "cnab240" }
            let pays : List Payment :=
              if is_paid ∧ 0 < valor_pago then
                let ref := if st.nosso_numero ≠ "" then st.nosso_numero
                  else st.numero_documento
                [{ payer_cnpj := st.payer_cnpj
                   payer_name := st.payer_name
                   amount := valor_pago
                   date := data_credito <|> data_ocorrencia
                   bank_reference := if ref ≠ "" then some ref else none
                   source := "cnab240" }]
              else []
            let res := cnab240Go none (line_num + 1) rest
            ⟨recv :: res.receivables, pays ++ res.payments, res.errors⟩
          | _, _, _ =>
            let res := cnab240Go none (line_num + 1) rest
            ⟨res.receivables, res.payments, line_num :: res.errors⟩
      else cnab240Go seg_t (line_num + 1) rest

/-- `parse_cnab240_content`; `none` is the parse-level decode failure
(`raise ValueError`). -/
def parse_cnab240_content (content : List Byte) : Option ParseResult :=
  (cnabDecode content).map fun text => cnab240Go none 1 (cnabLines text)

/-! ## CNAB 400 parser (`parse_cnab400_content`) -/

/-- The per-line loop of `parse_cnab400_content`.  As in the 240 parser, the
four `_cnab_parse_value` calls are the only expressions in the `try` body
that can raise. -/
def cnab400Go : Nat → List (List Char) → ParseResult
  | _, [] => ⟨[], [], []⟩
  | line_num, line :: rest =>
    if line.length < 400 then cnab400Go (line_num + 1) rest
    else if pyChar line 0 ≠ '1' then cnab400Go (line_num + 1) rest
    else
      match cnab_parse_value (pySlice line 152 165),
          cnab_parse_value (pySlice line 253 266),
          cnab_parse_value (pySlice line 266 279),
          cnab_parse_value (pySlice line 240 253) with
      | some valor_titulo, some valor_pago, some _juros_multa, some _desconto =>
        let codigo_ocorrencia := stripS (pySlice line 108 110)
        let data_ocorrencia := cnab_parse_date (pySlice line 110 116)
        let numero_documento := stripS (pySlice line 116 126)
        let nosso_numero := stripS (pySlice line 62 70)
        let vencimento := cnab_parse_date (pySlice line 146 152)
        let nome_pagador : Option String :=
          if 354 < line.length then some (stripS (pySlice line 324 354))
          else none
        let data_credito :=
          if 301 < line.length then cnab_parse_date (pySlice line 295 301)
          else none
        let is_paid := codigo_ocorrencia ∈ CNAB_PAID_CODES
        let display_name : Option String :=
          match nome_pagador with
          | some n => if n ≠ "" then some n else none
          | none => none
        let recv : Receivable :=
          { debtor_name := display_name
            face_value := valor_titulo
            due_date := vencimento
            status := if is_paid then "conciliated" else "pending"
            source := "cnab400" }
        let pays : List Payment :=
          if is_paid ∧ 0 < valor_pago then
            let ref := if nosso_numero ≠ "" then nosso_numero
              else numero_documento
            [{ payer_name := display_name
               amount := valor_pago
               date := data_credito <|> data_ocorrencia
               bank_reference := if ref ≠ "" then some ref else none
               source := "cnab400" }]
          else []
        let res := cnab400Go (line_num + 1) rest
        ⟨recv :: res.receivables, pays ++ res.payments, res.errors⟩
      | _, _, _, _ =>
        let res := cnab400Go (line_num + 1) rest
        ⟨res.receivables, res.payments, line_num :: res.errors⟩

/-- `parse_cnab400_content`; `none` is the parse-level decode failure. -/
def parse_cnab400_content (content : List Byte) : Option ParseResult :=
  (cnabDecode content).map fun text => cnab400Go 1 (cnabLines text)

/-! ## Monetary and date normalizers (`parse_monetary_value`, `parse_date`,
`normalize_cnpj`) -/

def decTakeDigits (l : List Char) : List Char × List Char :=
  (l.takeWhile Char.isDigit, l.dropWhile Char.isDigit)

def decSign : List Char → Int × List Char
  | '+' :: r => (1, r)
  | '-' :: r => (-1, r)
  | l => (1, l)

/-- Python `Decimal(str)` on finite numeric strings: surrounding whitespace
stripped and underscores removed (per the documented constructor), optional
sign, digit mantissa with optional point, optional signed exponent; `none`
models `InvalidOperation`.  Non-finite literals (`Infinity`, `NaN`), which
have no rational value, are outside this model and map to `none`. -/
def decimalOfString (s : List Char) : Option ℚ :=
  let l := (pyStrip s).filter (· ≠ '_')
  let sl := decSign l
  let ipr := decTakeDigits sl.2
  let fpr :=
    match ipr.2 with
    | '.' :: r => decTakeDigits r
    | _ => (([] : List Char), ipr.2)
  let ip := ipr.1
  let fp := fpr.1
  if ip.isEmpty ∧ fp.isEmpty then none
  else
    let mant : ℚ := digitsToNat ip + (digitsToNat fp : ℚ) / 10 ^ fp.length
    match fpr.2 with
    | [] => some (sl.1 * mant)
    | e :: r3 =>
      if e = 'e' ∨ e = 'E' then
        let esr := decSign r3
        let edr := decTakeDigits esr.2
        if edr.1.isEmpty ∨ !edr.2.isEmpty then none
        else
          let p : ℚ := 10 ^ digitsToNat edr.1
          some (sl.1 * (if esr.1 = 1 then mant * p else mant / p))
      else none

/-- `parse_monetary_value`: Brazilian `1.234,56` or plain `1234.56`. -/
def parse_monetary_value (value : String) : Option ℚ :=
  if value = "" ∨ pyStripS value = "" then none
  else
    let v := pyReplace [' '] [] (pyReplace "R$".toList [] (pyStrip value.toList))
    let v :=
      if v.contains ',' ∧ v.contains '.' then
        pyReplace [','] ['.'] (pyReplace ['.'] [] v)
      else if v.contains ',' then pyReplace [','] ['.'] v
      else v
    decimalOfString v

/-! `strptime` field matchers.  CPython compiles each format to one regex:
`%d` is the alternation `3[01]|[12]\d|0[1-9]|[1-9]`, `%m` is
`1[0-2]|0[1-9]|[1-9]`, `%Y` is exactly four digits; the whole match must
consume the input, and `date()` construction then validates the triple.
The candidate lists below enumerate each directive's alternatives in regex
order, and the per-format matchers backtrack through them exactly as the
regex engine does. -/

def dayCandidates : List Char → List (Nat × List Char)
  | a :: b :: r =>
    (if a = '3' ∧ (b = '0' ∨ b = '1') then [(digitsToNat [a, b], r)] else [])
      ++ (if (a = '1' ∨ a = '2') ∧ b.isDigit then [(digitsToNat [a, b], r)] else [])
      ++ (if a = '0' ∧ b.isDigit ∧ b ≠ '0' then [(digitsToNat [a, b], r)] else [])
      ++ (if a.isDigit ∧ a ≠ '0' then [(a.toNat - '0'.toNat, b :: r)] else [])
  | [a] => if a.isDigit ∧ a ≠ '0' then [(a.toNat - '0'.toNat, [])] else []
  | [] => []

def monthCandidates : List Char → List (Nat × List Char)
  | a :: b :: r =>
    (if a = '1' ∧ (b = '0' ∨ b = '1' ∨ b = '2') then [(digitsToNat [a, b], r)] else [])
      ++ (if a = '0' ∧ b.isDigit ∧ b ≠ '0' then [(digitsToNat [a, b], r)] else [])
      ++ (if a.isDigit ∧ a ≠ '0' then [(a.toNat - '0'.toNat, b :: r)] else [])
  | [a] => if a.isDigit ∧ a ≠ '0' then [(a.toNat - '0'.toNat, [])] else []
  | [] => []

def year4 (l : List Char) : Option (Nat × List Char) :=
  match l with
  | a :: b :: c :: d :: r =>
    if a.isDigit ∧ b.isDigit ∧ c.isDigit ∧ d.isDigit then
      some (digitsToNat [a, b, c, d], r)
    else none
  | _ => none

/-- First (p1, p2, p3) regex parse of `p1 sep p2 sep p3-as-4-digit-year`,
requiring full consumption, then `date()` validation with p1 = day,
p2 = month (`%d sep %m sep %Y`). -/
def tryDMY (sep : Char) (l : List Char) : Option PDate :=
  (dayCandidates l).firstM fun dc =>
    match dc.2 with
    | c :: r2 =>
      if c = sep then
        (monthCandidates r2).firstM fun mc =>
          match mc.2 with
          | c2 :: r4 =>
            if c2 = sep then
              match year4 r4 with
              | some (y, []) =>
                if validDate y mc.1 dc.1 then some ⟨y, mc.1, dc.1⟩ else none
              | _ => none
            else none
          | [] => none
      else none
    | [] => none

/-- `%m sep %d sep %Y`. -/
def tryMDY (sep : Char) (l : List Char) : Option PDate :=
  (monthCandidates l).firstM fun mc =>
    match mc.2 with
    | c :: r2 =>
      if c = sep then
        (dayCandidates r2).firstM fun dc =>
          match dc.2 with
          | c2 :: r4 =>
            if c2 = sep then
              match year4 r4 with
              | some (y, []) =>
                if validDate y mc.1 dc.1 then some ⟨y, mc.1, dc.1⟩ else none
              | _ => none
            else none
          | [] => none
      else none
    | [] => none

/-- `%Y-%m-%d`. -/
def tryYMD (l : List Char) : Option PDate :=
  match year4 l with
  | some (y, '-' :: r2) =>
    (monthCandidates r2).firstM fun mc =>
      match mc.2 with
      | '-' :: r4 =>
        (dayCandidates r4).firstM fun dc =>
          match dc.2 with
          | [] => if validDate y mc.1 dc.1 then some ⟨y, mc.1, dc.1⟩ else none
          | _ => none
      | _ => none
  | _ => none

/-- `parse_date`: try `DATE_FORMATS = ["%d/%m/%Y", "%Y-%m-%d", "%d-%m-%Y",
"%d.%m.%Y", "%m/%d/%Y"]` in order, first success wins. -/
def parse_date (value : String) : Option PDate :=
  if value = "" ∨ pyStripS value = "" then none
  else
    let v := (pyStripS value).toList
    tryDMY '/' v <|> tryYMD v <|> tryDMY '-' v <|> tryDMY '.' v <|> tryMDY '/' v

/-- `normalize_cnpj`: strip, then delete every '.', '-' and '/' character
(the `re.sub` punctuation class). -/
def normalize_cnpj (value : String) : String :=
  String.mk ((pyStrip value.toList).filter fun c => c ≠ '.' ∧ c ≠ '-' ∧ c ≠ '/')

/-! ## Identifier patterns (`CNPJ_PATTERN`, `CPF_PATTERN`)

`\d` is modelled as an ASCII digit.  The optional punctuation characters are
consumed deterministically when present: each is a non-digit immediately
followed by a digit class in the pattern, so no other backtracking path can
succeed.  Inputs are pre-stripped at every call site, so `$` is plain
end-of-string. -/

def matchNDigits (n : Nat) (l : List Char) : Option (List Char) :=
  if (l.take n).length = n ∧ (l.take n).all Char.isDigit then some (l.drop n)
  else none

def matchOptChar (c : Char) : List Char → List Char
  | x :: r => if x = c then r else x :: r
  | [] => []

/-- `^\d{2}\.?\d{3}\.?\d{3}/?\d{4}-?\d{2}$` as a whole-string test. -/
def cnpj_pattern_match (l : List Char) : Bool :=
  match matchNDigits 2 l with
  | none => false
  | some r1 =>
    match matchNDigits 3 (matchOptChar '.' r1) with
    | none => false
    | some r2 =>
      match matchNDigits 3 (matchOptChar '.' r2) with
      | none => false
      | some r3 =>
        match matchNDigits 4 (matchOptChar '/' r3) with
        | none => false
        | some r4 =>
          match matchNDigits 2 (matchOptChar '-' r4) with
          | some [] => true
          | _ => false

/-- `^\d{3}\.?\d{3}\.?\d{3}-?\d{2}$` as a whole-string test. -/
def cpf_pattern_match (l : List Char) : Bool :=
  match matchNDigits 3 l with
  | none => false
  | some r1 =>
    match matchNDigits 3 (matchOptChar '.' r1) with
    | none => false
    | some r2 =>
      match matchNDigits 3 (matchOptChar '.' r2) with
      | none => false
      | some r3 =>
        match matchNDigits 2 (matchOptChar '-' r3) with
        | some [] => true
        | _ => false

/-- `CNPJ_PATTERN.match(v.strip()) or CPF_PATTERN.match(v.strip())`. -/
def checkIdentifierSample (v : String) : Bool :=
  cnpj_pattern_match (pyStrip v.toList) || cpf_pattern_match (pyStrip v.toList)

/-! ## Column role classifier (`detect_column_type`) -/

def VALUE_HINTS : List String :=
  ["valor", "value", "montante", "amount", "total", "face_value", "vl_", "vlr"]

def DATE_HINTS : List String :=
  ["data", "date", "vencimento", "due", "dt_", "emissao", "pagamento"]

/-- `detect_column_type(header, sample_values)`.  The float thresholds
`len * 0.3 / 0.5 / 0.7` are modelled as exact rationals: for any list that
fits in memory the IEEE product differs from the exact one by far less than
the minimum 1/10 gap between an integer count and a non-attained bound. -/
def detect_column_type (header : String) (sample_values : List String) :
    String :=
  let h := pyStripS (pyLowerS header)
  if ["nome", "name", "razao", "razão"].any (pyContainsS h ·) then "name"
  else if ["cnpj", "cpf", "documento", "doc"].any (pyContainsS h ·) then "cnpj"
  else if VALUE_HINTS.any (pyContainsS h ·) then "value"
  else if DATE_HINTS.any (pyContainsS h ·) then "date"
  else if ["sacado", "pagador", "cedente", "devedor"].any (pyContainsS h ·) then
    let non_empty := sample_values.filter fun v => v ≠ "" ∧ pyStripS v ≠ ""
    let cnpj_matches := (non_empty.filter checkIdentifierSample).length
    if (cnpj_matches : ℚ) > non_empty.length * (3 / 10) then "cnpj" else "name"
  else
    let non_empty := sample_values.filter fun v => v ≠ "" ∧ pyStripS v ≠ ""
    if non_empty.isEmpty then "unknown"
    else
      let cnpj_matches := (non_empty.filter checkIdentifierSample).length
      if (cnpj_matches : ℚ) > non_empty.length * (1 / 2) then "cnpj"
      else
        let value_matches :=
          (non_empty.filter fun v => (parse_monetary_value v).isSome).length
        if (value_matches : ℚ) > non_empty.length * (7 / 10) then "value"
        else
          let date_matches :=
            (non_empty.filter fun v => (parse_date v).isSome).length
          if (date_matches : ℚ) > non_empty.length * (7 / 10) then "date"
          else "name"

/-! ## Row materialization (`_build_records`)

`column_map` is the Python dict from role name to column indices.  The
row-level `try/except` is unreachable here (no expression in the loop body
raises), so the error list is always empty. -/

def dictGet (m : List (String × List Nat)) (k : String) : List Nat :=
  (m.lookup k).getD []

/-- First value-role column yielding a parseable amount. -/
def firstValueIn (row : List String) : List Nat → Option ℚ
  | [] => none
  | col :: rest =>
    if h : col < row.length then
      match parse_monetary_value (row.get ⟨col, h⟩) with
      | some v => some v
      | none => firstValueIn row rest
    else firstValueIn row rest

def firstDateIn (row : List String) : List Nat → Option PDate
  | [] => none
  | col :: rest =>
    if h : col < row.length then
      match parse_date (row.get ⟨col, h⟩) with
      | some d => some d
      | none => firstDateIn row rest
    else firstDateIn row rest

def firstCnpjIn (row : List String) : List Nat → Option String
  | [] => none
  | col :: rest =>
    if h : col < row.length then
      let raw := pyStripS (row.get ⟨col, h⟩)
      if raw ≠ "" then some (normalize_cnpj raw) else firstCnpjIn row rest
    else firstCnpjIn row rest

def firstNameIn (row : List String) : List Nat → Option String
  | [] => none
  | col :: rest =>
    if h : col < row.length then
      let raw := pyStripS (row.get ⟨col, h⟩)
      if raw ≠ "" then some raw else firstNameIn row rest
    else firstNameIn row rest

/-- The per-row body of `_build_records`: `none` when the row is skipped
(no parseable or zero amount), otherwise the receivable or payment built
from it. -/
def buildRow (value_cols date_cols cnpj_cols name_cols : List Nat)
    (file_type source : String) (row : List String) :
    Option (Receivable ⊕ Payment) :=
  match firstValueIn row value_cols with
  | none => none
  | some value =>
    if value = 0 then none
    else
      let record_date := firstDateIn row date_cols
      let cnpj := firstCnpjIn row cnpj_cols
      let name := firstNameIn row name_cols
      let abs_value := |value|
      if file_type = "payment" ∨ value < 0 then
        some (Sum.inr
          { payer_cnpj := cnpj, payer_name := name, amount := abs_value,
            date := record_date, source := source })
      else
        some (Sum.inl
          { debtor_cnpj := cnpj, debtor_name := name, face_value := abs_value,
            due_date := record_date, source := source })

/-- `_build_records`; `none` is the parse-level "no value column" failure. -/
def build_records (column_map : List (String × List Nat))
    (data_rows : List (List String)) (source : String)
    (file_type : String := "receivable") : Option ParseResult :=
  let value_cols := dictGet column_map "value"
  let date_cols := dictGet column_map "date"
  let cnpj_cols := dictGet column_map "cnpj"
  let name_cols := dictGet column_map "name"
  if value_cols.isEmpty then none
  else
    let rows := data_rows.map
      (buildRow value_cols date_cols cnpj_cols name_cols file_type source)
    some
      { receivables := rows.filterMap fun r =>
          match r with
          | some (Sum.inl rec) => some rec
          | _ => none
        payments := rows.filterMap fun r =>
          match r with
          | some (Sum.inr pay) => some pay
          | _ => none
        errors := [] }

/-- `_detect_cnab_format`: classify by the exact length of the first
non-empty line. -/
def detect_cnab_format (content : List Byte) : Option String :=
  match cnabDecode content with
  | none => none
  | some text =>
    match cnabLines text with
    | [] => none
    | l :: _ =>
      if l.length = 240 then some "240"
      else if l.length = 400 then some "400"
      else none

/-! ## Concrete inputs used by counterexamples and witnesses -/

/-- ASCII text as a byte string (every character below 256). -/
def asciiBytes (l : List Char) : List Byte :=
  l.map fun c => Fin.ofNat c.toNat

/-- A 240-character title ("T") detail line: record type '3' at offset 7,
segment 'T' at offset 13, occurrence code "06", nosso número "11111111",
documento "2222222222", zero due date, face value 100.00, zero payer
inscription, blank payer name. -/
def exTLine : List Char :=
  List.replicate 7 '0' ++ ['3'] ++ List.replicate 5 '0' ++ ['T'] ++ ['0']
    ++ "06".toList ++ List.replicate 23 '0' ++ List.replicate 8 '1'
    ++ List.replicate 10 '0' ++ List.replicate 10 '2' ++ List.replicate 5 '0'
    ++ List.replicate 8 '0' ++ "000000000010000".toList
    ++ List.replicate 36 '0' ++ ['2'] ++ List.replicate 15 '0'
    ++ List.replicate 30 ' ' ++ List.replicate 62 '0'

/-- A 240-character title line whose every numeric field is zero (face
value 0.00) and whose payer-name field is blank. -/
def exT0Line : List Char :=
  List.replicate 7 '0' ++ ['3'] ++ List.replicate 5 '0' ++ ['T']
    ++ List.replicate 134 '0' ++ List.replicate 30 ' '
    ++ List.replicate 62 '0'

/-- A 240-character settlement ("U") detail line whose every field is zero. -/
def exULine : List Char :=
  List.replicate 7 '0' ++ ['3'] ++ List.replicate 5 '0' ++ ['U']
    ++ List.replicate 226 '0'

/-- A 400-character detail line: record type '1' at offset 0, blank payer
name field, everything else zero. -/
def ex400Line : List Char :=
  '1' :: List.replicate 323 '0' ++ List.replicate 30 ' '
    ++ List.replicate 46 '0'

/-- UTF-8 encoding of "é" (0xC3 0xA9), which Latin-1 reads as "Ã©". -/
def exAccentBytes : List Byte := [⟨0xC3, by decide⟩, ⟨0xA9, by decide⟩]

/-! ## Shared decode-chain lemmas -/

/-- The CNAB chain tries Latin-1 first, and Latin-1 accepts every byte
sequence, so the chain always returns the Latin-1 decoding. -/
theorem cnabDecode_eq_latin1 (content : List Byte) :
    cnabDecode content = some (latin1Decode content) := rfl

theorem parse_cnab240_content_eq (content : List Byte) :
    parse_cnab240_content content =
      some (cnab240Go none 1 (cnabLines (latin1Decode content))) := rfl

theorem parse_cnab400_content_eq (content : List Byte) :
    parse_cnab400_content content =
      some (cnab400Go 1 (cnabLines (latin1Decode content))) := rfl

theorem csvDecode_isSome (content : List Byte) : (csvDecode content).isSome := by
  cases h : utf8Decode content <;> simp [csvDecode, tryEncodings, h]

/-- C9: the encoding fallback chains of the tabular and fixed-width parsers
succeed on every byte string, because the Latin-1 fallback decodes every
byte sequence; the could-not-decode parse-level error branches are
unreachable. -/
theorem C9_decode_never_fails (content : List Byte) :
    (csvDecode content).isSome ∧ (cnabDecode content).isSome ∧
    (parse_cnab240_content content).isSome ∧
    (parse_cnab400_content content).isSome :=
  ⟨csvDecode_isSome content, by rw [cnabDecode_eq_latin1]; rfl,
    by rw [parse_cnab240_content_eq]; rfl,
    by rw [parse_cnab400_content_eq]; rfl⟩

/-- C6 counterexample: the fixed-width chain is not the tabular chain — on
the UTF-8 bytes of "é" the tabular chain decodes UTF-8 ("é") while the
fixed-width chain decodes Latin-1 ("Ã©"). -/
theorem C6_counterexample :
    csvDecode exAccentBytes = some ['é'] ∧
    cnabDecode exAccentBytes = some ['Ã', '©'] ∧
    csvDecode exAccentBytes ≠ cnabDecode exAccentBytes := by decide

/-- C6 (amended): the fixed-width return parser's fallback chain is
latin-1, then cp1252, then utf-8 — the reverse-priority of the tabular
chain — and since Latin-1 decodes every byte sequence the fixed-width
parsers always consume exactly the Latin-1 decoding of the input. -/
theorem C6_cnab_chain_is_latin1 (content : List Byte) :
    cnabDecode content = some (latin1Decode content) ∧
    parse_cnab240_content content =
      some (cnab240Go none 1 (cnabLines (latin1Decode content))) ∧
    parse_cnab400_content content =
      some (cnab400Go 1 (cnabLines (latin1Decode content))) :=
  ⟨rfl, rfl, rfl⟩

/-! ## C8: the perfect-match scenario -/

def exC8Recv : Receivable :=
  { face_value := 1000, due_date := some ⟨2024, 3, 10⟩,
    debtor_cnpj := some "12345678000190" }

def exC8Pay : Payment :=
  { amount := 1000, date := some ⟨2024, 3, 10⟩,
    payer_cnpj := some "12345678000190" }

unseal Rat.mul Rat.add Rat.sub Rat.inv in
/-- C8: a receivable of face value 1000.00 due 2024-03-10 with debtor id
"12345678000190" against a payment of 1000.00 on 2024-03-10 with the same
payer id scores exactly 100. -/
theorem C8_perfect_match_scores_100 :
    match_confidence exC8Recv exC8Pay = 100 := by decide

/-! ## C5: value hard veto and tier decomposition -/

/-- C5: for any receivable with nonzero face value and any payment, a
relative value difference above 5% makes the score exactly 0 whatever the
identifier, name and date fields are; otherwise the value component
contributes 40 points at ≤ 0.1% relative difference, 30 at ≤ 2% and 15 at
≤ 5%, on top of the other components (sum capped at 100). -/
theorem C5_value_veto_and_tiers (r : Receivable) (p : Payment)
    (hface : r.face_value ≠ 0) :
    (VALUE_FUZZY_TOLERANCE < value_pct r p → match_confidence r p = 0) ∧
    (value_pct r p ≤ VALUE_EXACT_TOLERANCE →
      match_confidence r p =
        min (40 + cnpjPoints r p + namePoints r p + datePoints r p) 100) ∧
    (VALUE_EXACT_TOLERANCE < value_pct r p →
      value_pct r p ≤ VALUE_CLOSE_TOLERANCE →
      match_confidence r p =
        min (30 + cnpjPoints r p + namePoints r p + datePoints r p) 100) ∧
    (VALUE_CLOSE_TOLERANCE < value_pct r p →
      value_pct r p ≤ VALUE_FUZZY_TOLERANCE →
      match_confidence r p =
        min (15 + cnpjPoints r p + namePoints r p + datePoints r p) 100) := by
  have hEC : VALUE_EXACT_TOLERANCE ≤ VALUE_CLOSE_TOLERANCE := by
    norm_num [VALUE_EXACT_TOLERANCE, VALUE_CLOSE_TOLERANCE]
  have hCF : VALUE_CLOSE_TOLERANCE ≤ VALUE_FUZZY_TOLERANCE := by
    norm_num [VALUE_CLOSE_TOLERANCE, VALUE_FUZZY_TOLERANCE]
  refine ⟨fun h => ?_, fun h => ?_, fun h1 h2 => ?_, fun h1 h2 => ?_⟩
  · simp only [match_confidence, valuePoints, if_neg hface]
    rw [if_neg (by linarith), if_neg (by linarith), if_neg (by linarith)]
  · simp only [match_confidence, valuePoints, if_neg hface]
    rw [if_pos h]
  · simp only [match_confidence, valuePoints, if_neg hface]
    rw [if_neg (by linarith), if_pos h2]
  · simp only [match_confidence, valuePoints, if_neg hface]
    rw [if_neg (by linarith), if_neg (by linarith), if_pos h2]

def exC5Recv : Receivable := { face_value := 500 }

def exC5Pay : Payment := { amount := 800 }

unseal Rat.mul Rat.add Rat.sub Rat.inv in
/-- C5 witness: face value 500.00 against amount 800.00 is a 60% relative
difference, so the veto branch of the theorem gives score 0. -/
theorem C5_witness :
    (500 : ℚ) ≠ 0 ∧ VALUE_FUZZY_TOLERANCE < value_pct exC5Recv exC5Pay ∧
    match_confidence exC5Recv exC5Pay = 0 :=
  ⟨by norm_num, by decide,
    (C5_value_veto_and_tiers exC5Recv exC5Pay (by decide)).1 (by decide)⟩

/-! ## C3: the greedy walk never claims an identifier twice -/

theorem greedy_matches_claims_once (l : List Cand) (mr mp : List String) :
    (((greedy_matches l mr mp).map MatchEntry.receivable_id).Nodup ∧
      ∀ x ∈ (greedy_matches l mr mp).map MatchEntry.receivable_id, x ∉ mr) ∧
    (((greedy_matches l mr mp).map MatchEntry.payment_id).Nodup ∧
      ∀ x ∈ (greedy_matches l mr mp).map MatchEntry.payment_id, x ∉ mp) := by
  induction l generalizing mr mp with
  | nil => simp [greedy_matches]
  | cons c rest ih =>
    obtain ⟨recv, pay, conf⟩ := c
    by_cases hmem : recv.id ∈ mr ∨ pay.id ∈ mp
    · simpa [greedy_matches, hmem] using ih mr mp
    · push_neg at hmem
      have ih' := ih (recv.id :: mr) (pay.id :: mp)
      simp only [greedy_matches, if_neg (by tauto : ¬(recv.id ∈ mr ∨ pay.id ∈ mp)),
        List.map_cons, List.nodup_cons, List.mem_cons, mkMatchEntry]
      refine ⟨⟨⟨?_, ih'.1.1⟩, ?_⟩, ⟨⟨?_, ih'.2.1⟩, ?_⟩⟩
      · intro hin
        exact (ih'.1.2 recv.id hin) (List.mem_cons_self _ _)
      · rintro x (rfl | hx)
        · exact hmem.1
        · intro hxmr
          exact (ih'.1.2 x hx) (List.mem_cons_of_mem _ hxmr)
      · intro hin
        exact (ih'.2.2 pay.id hin) (List.mem_cons_self _ _)
      · rintro x (rfl | hx)
        · exact hmem.2
        · intro hxmp
          exact (ih'.2.2 x hx) (List.mem_cons_of_mem _ hxmp)

/-- C3: for every input set of receivables and payments, the greedy
matching step claims each receivable identifier and each payment identifier
at most once — no identifier appears in two entries of the match list. -/
theorem C3_no_identifier_claimed_twice (rs : List Receivable)
    (ps : List Payment) :
    ((conciliation_matches rs ps).map MatchEntry.receivable_id).Nodup ∧
    ((conciliation_matches rs ps).map MatchEntry.payment_id).Nodup :=
  ⟨(greedy_matches_claims_once (sorted_matches rs ps) [] []).1.1,
    (greedy_matches_claims_once (sorted_matches rs ps) [] []).2.1⟩

/-! ## C10: the narrow (400) parser never extracts a tax identifier -/

theorem cnab400Go_no_cnpj (n : Nat) (ls : List (List Char)) :
    (∀ r ∈ (cnab400Go n ls).receivables, r.debtor_cnpj = none) ∧
    (∀ p ∈ (cnab400Go n ls).payments, p.payer_cnpj = none) := by
  induction ls generalizing n with
  | nil => simp [cnab400Go]
  | cons line rest ih =>
    simp only [cnab400Go]
    split
    · exact ih _
    · split
      · exact ih _
      · split
        · constructor
          · intro r hr
            rcases List.mem_cons.1 hr with h | h
            · subst h; rfl
            · exact (ih _).1 r h
          · intro p hp
            rcases List.mem_append.1 hp with h | h
            · revert h
              split
              · intro h
                rcases List.mem_singleton.1 h with rfl
                rfl
              · intro h; cases h
            · exact (ih _).2 p h
        · exact ih _

/-- C10: every receivable and payment produced by the narrow (400-char)
fixed-width parser has a null payer/debtor tax identifier, and the
confidence scorer's 35-point identifier component is 0 (and its suppression
of the name bonus is off) whenever either side's identifier is null — so it
can never apply to a pair involving a record from this parser. -/
theorem C10_narrow_parser_no_identifier_points :
    (∀ content res, parse_cnab400_content content = some res →
      (∀ r ∈ res.receivables, r.debtor_cnpj = none) ∧
      (∀ p ∈ res.payments, p.payer_cnpj = none)) ∧
    (∀ (r : Receivable) (p : Payment),
      r.debtor_cnpj = none ∨ p.payer_cnpj = none →
        cnpjMatched r p = false ∧ cnpjPoints r p = 0) := by
  constructor
  · intro content res hres
    have : res = cnab400Go 1 (cnabLines (latin1Decode content)) := by
      have h2 := parse_cnab400_content_eq content
      rw [hres] at h2
      exact Option.some_injective _ h2
    subst this
    exact cnab400Go_no_cnpj 1 _
  · intro r p h
    have hm : cnpjMatched r p = false := by
      rcases h with h | h <;>
        simp [cnpjMatched, h, pyTruthy]
    exact ⟨hm, by simp [cnpjPoints, hm]⟩

def ex400Recv : Receivable :=
  { face_value := 0, status := "pending", source := "cnab400" }

def ex400Res : ParseResult := ⟨[ex400Recv], [], []⟩

unseal Rat.mul Rat.add Rat.sub Rat.inv in
/-- C10 witness: on a concrete all-zero 400-character detail line the
parser emits one receivable with a null identifier, and the identifier
component for it against any concrete payment is 0. -/
theorem C10_witness :
    ex400Recv.debtor_cnpj = none ∧
    cnpjPoints ex400Recv { amount := 100, payer_cnpj := some "x" } = 0 :=
  ⟨(C10_narrow_parser_no_identifier_points.1 (asciiBytes ex400Line) ex400Res
      (by decide)).1 ex400Recv (by decide),
    (C10_narrow_parser_no_identifier_points.2 ex400Recv
      { amount := 100, payer_cnpj := some "x" } (Or.inl rfl)).2⟩

/-! ## C1: a title with no settlement emits nothing -/

/-- A wide-format settlement line: 240 characters or more, record type '3'
at offset 7, segment 'U' at offset 13. -/
def isSettlementLine (line : List Char) : Prop :=
  240 ≤ line.length ∧ pyChar line 7 = '3' ∧ (pyChar line 13).toUpper = 'U'

instance (line : List Char) : Decidable (isSettlementLine line) := by
  unfold isSettlementLine; infer_instance

/-- Records are only ever appended inside the settlement ("U") branch of the
wide-format loop: with no settlement line in the input, the parser emits no
receivable and no payment, whatever title segments it buffers. -/
theorem cnab240Go_no_settlement (seg : Option SegT) (n : Nat)
    (ls : List (List Char)) (h : ∀ l ∈ ls, ¬ isSettlementLine l) :
    (cnab240Go seg n ls).receivables = [] ∧
    (cnab240Go seg n ls).payments = [] := by
  induction ls generalizing seg n with
  | nil => simp [cnab240Go]
  | cons line rest ih =>
    have hline := h line (List.mem_cons_self _ _)
    have hrest : ∀ l ∈ rest, ¬ isSettlementLine l := fun l hl =>
      h l (List.mem_cons_of_mem _ hl)
    simp only [cnab240Go]
    by_cases h1 : line.length < 240
    · rw [if_pos h1]; exact ih _ _ hrest
    · rw [if_neg h1]
      by_cases h2 : pyChar line 7 ≠ '3'
      · rw [if_pos h2]; exact ih _ _ hrest
      · rw [if_neg h2]
        push_neg at h2
        by_cases h3 : (pyChar line 13).toUpper = 'T'
        · rw [if_pos h3]
          cases hv : cnab_parse_value (pySlice line 81 96) with
          | none => simpa using ih _ _ hrest
          | some v => exact ih _ _ hrest
        · rw [if_neg h3]
          by_cases h4 : (pyChar line 13).toUpper = 'U'
          · exact absurd ⟨Nat.le_of_not_lt h1, h2, h4⟩ hline
          · rw [if_neg h4]
            exact ih _ _ hrest

/-- C1 (amended): a title segment with no following settlement segment
before end-of-file yields NO records at all — neither a receivable nor a
payment; in particular, an input containing title segments but no
settlement line produces empty receivable and payment lists. -/
theorem C1_title_without_settlement_yields_nothing (content : List Byte)
    (h : ∀ l ∈ cnabLines (latin1Decode content), ¬ isSettlementLine l) :
    ∀ res, parse_cnab240_content content = some res →
      res.receivables = [] ∧ res.payments = [] := by
  intro res hres
  have heq : res = cnab240Go none 1 (cnabLines (latin1Decode content)) := by
    have h2 := parse_cnab240_content_eq content
    rw [hres] at h2
    exact Option.some_injective _ h2
  subst heq
  exact cnab240Go_no_settlement none 1 _ h

unseal Rat.mul Rat.add Rat.sub Rat.inv in
/-- C1 counterexample: a file consisting of exactly one title ("T") segment
line — and therefore no settlement before end-of-file — produces zero
receivables (the claim requires exactly one) and zero payments. -/
theorem C1_counterexample :
    exTLine.length = 240 ∧ pyChar exTLine 7 = '3' ∧
    (pyChar exTLine 13).toUpper = 'T' ∧
    cnabLines (latin1Decode (asciiBytes exTLine)) = [exTLine] ∧
    parse_cnab240_content (asciiBytes exTLine) = some ⟨[], [], []⟩ := by
  decide

unseal Rat.mul Rat.add Rat.sub Rat.inv in
/-- C1 witness: the amended theorem applied to the one-title-line file. -/
theorem C1_witness :
    (⟨[], [], []⟩ : ParseResult).receivables = [] ∧
    (⟨[], [], []⟩ : ParseResult).payments = [] :=
  C1_title_without_settlement_yields_nothing (asciiBytes exTLine)
    (by decide) ⟨[], [], []⟩ (by decide)

/-! ## C2: face-value sign invariants -/

theorem cnab_parse_value_nonneg (raw : List Char) (decimals : Nat) (v : ℚ)
    (h : cnab_parse_value raw decimals = some v) : 0 ≤ v := by
  unfold cnab_parse_value at h
  dsimp only at h
  split at h
  · obtain rfl := Option.some_injective _ h
    exact le_rfl
  · repeat' split at h
    all_goals first
      | exact Option.noConfusion h
      | (obtain rfl := Option.some_injective _ h; positivity)

/-- Every receivable the wide-format loop emits carries a `valor_titulo`
decoded by `_cnab_parse_value`, which is never negative — but nothing
rules out zero. -/
theorem cnab240Go_face_nonneg (seg : Option SegT) (n : Nat)
    (ls : List (List Char))
    (hseg : ∀ st, seg = some st → 0 ≤ st.valor_titulo) :
    ∀ r ∈ (cnab240Go seg n ls).receivables, 0 ≤ r.face_value := by
  induction ls generalizing seg n with
  | nil => simp [cnab240Go]
  | cons line rest ih =>
    simp only [cnab240Go]
    by_cases h1 : line.length < 240
    · rw [if_pos h1]; exact ih _ _ hseg
    · rw [if_neg h1]
      by_cases h2 : pyChar line 7 ≠ '3'
      · rw [if_pos h2]; exact ih _ _ hseg
      · rw [if_neg h2]
        by_cases h3 : (pyChar line 13).toUpper = 'T'
        · rw [if_pos h3]
          cases hv : cnab_parse_value (pySlice line 81 96) with
          | none =>
            intro r hr
            exact ih _ _ (fun st hst => Option.noConfusion hst) r hr
          | some v =>
            exact ih _ _ (fun st hst => by
              cases hst
              exact cnab_parse_value_nonneg _ _ _ hv)
        · rw [if_neg h3]
          by_cases h4 : (pyChar line 13).toUpper = 'U'
          · rw [if_pos h4]
            cases seg with
            | none => exact ih _ _ (fun st hst => Option.noConfusion hst)
            | some st =>
              have hst := hseg st rfl
              cases hv1 : cnab_parse_value (pySlice line 77 92) with
              | none => exact ih _ _ (fun s hs => Option.noConfusion hs)
              | some valor_pago =>
                cases hv2 : cnab_parse_value (pySlice line 17 32) with
                | none => exact ih _ _ (fun s hs => Option.noConfusion hs)
                | some jm =>
                  cases hv3 : cnab_parse_value (pySlice line 32 47) with
                  | none => exact ih _ _ (fun s hs => Option.noConfusion hs)
                  | some dc =>
                    intro r hr
                    rcases List.mem_cons.1 hr with rfl | hr
                    · exact hst
                    · exact ih none _ (fun s hs => Option.noConfusion hs) r hr
          · rw [if_neg h4]
            exact ih _ _ hseg

/-- Narrow-format analogue of `cnab240Go_face_nonneg`. -/
theorem cnab400Go_face_nonneg (n : Nat) (ls : List (List Char)) :
    ∀ r ∈ (cnab400Go n ls).receivables, 0 ≤ r.face_value := by
  induction ls generalizing n with
  | nil => simp [cnab400Go]
  | cons line rest ih =>
    simp only [cnab400Go]
    by_cases h1 : line.length < 400
    · rw [if_pos h1]; exact ih _
    · rw [if_neg h1]
      by_cases h2 : pyChar line 0 ≠ '1'
      · rw [if_pos h2]; exact ih _
      · rw [if_neg h2]
        cases hv1 : cnab_parse_value (pySlice line 152 165) with
        | none => exact ih _
        | some valor_titulo =>
          cases hv2 : cnab_parse_value (pySlice line 253 266) with
          | none => exact ih _
          | some valor_pago =>
            cases hv3 : cnab_parse_value (pySlice line 266 279) with
            | none => exact ih _
            | some jm =>
              cases hv4 : cnab_parse_value (pySlice line 240 253) with
              | none => exact ih _
              | some dc =>
                intro r hr
                rcases List.mem_cons.1 hr with rfl | hr
                · exact cnab_parse_value_nonneg _ _ _ hv1
                · exact ih _ r hr

/-- A stored row amount is `abs` of a nonzero parsed value, hence positive. -/
theorem buildRow_receivable_pos (vc dc cc nc : List Nat) (ft src : String)
    (row : List String) (r : Receivable)
    (h : buildRow vc dc cc nc ft src row = some (Sum.inl r)) :
    0 < r.face_value := by
  unfold buildRow at h
  cases hv : firstValueIn row vc with
  | none => rw [hv] at h; exact Option.noConfusion h
  | some value =>
    simp only [hv] at h
    by_cases h0 : value = 0
    · rw [if_pos h0] at h; exact Option.noConfusion h
    · rw [if_neg h0] at h
      split at h
      · simp at h
      · simp only [Option.some.injEq, Sum.inl.injEq] at h
        rw [← h]
        exact abs_pos.mpr h0

/-- C2 (amended): the tabular row materializer drops zero and unparseable
amounts, so every receivable it stores has strictly positive face value;
the fixed-width parsers never store a negative face value but CAN store a
zero one (the title amount field is decoded with no positivity check). -/
theorem C2_face_value_signs :
    (∀ column_map data_rows source file_type res,
      build_records column_map data_rows source file_type = some res →
      ∀ r ∈ res.receivables, 0 < r.face_value) ∧
    (∀ content res, parse_cnab240_content content = some res →
      ∀ r ∈ res.receivables, 0 ≤ r.face_value) ∧
    (∀ content res, parse_cnab400_content content = some res →
      ∀ r ∈ res.receivables, 0 ≤ r.face_value) := by
  refine ⟨?_, ?_, ?_⟩
  · intro column_map data_rows source file_type res hres r hr
    simp only [build_records] at hres
    split at hres
    · exact Option.noConfusion hres
    · obtain rfl := Option.some_injective _ hres
      simp only [List.mem_filterMap, List.mem_map] at hr
      obtain ⟨x, ⟨row, _, rfl⟩, hx⟩ := hr
      split at hx
      all_goals first
        | exact Option.noConfusion hx
        | (rename_i rec heq
           obtain rfl := Option.some_injective _ hx
           exact buildRow_receivable_pos _ _ _ _ _ _ _ _ heq)
  · intro content res hres
    have heq : res = cnab240Go none 1 (cnabLines (latin1Decode content)) := by
      have h2 := parse_cnab240_content_eq content
      rw [hres] at h2
      exact Option.some_injective _ h2
    subst heq
    exact cnab240Go_face_nonneg none 1 _ (fun st hst => Option.noConfusion hst)
  · intro content res hres
    have heq : res = cnab400Go 1 (cnabLines (latin1Decode content)) := by
      have h2 := parse_cnab400_content_eq content
      rw [hres] at h2
      exact Option.some_injective _ h2
    subst heq
    exact cnab400Go_face_nonneg 1 _

/-- A zero-amount title line followed by a settlement line. -/
def exC2Bytes : List Byte := asciiBytes (exT0Line ++ '\n' :: exULine)

unseal Rat.mul Rat.add Rat.sub Rat.inv in
/-- C2 counterexample: the wide fixed-width parser stores a receivable whose
face value is exactly 0 when the title's amount field is all zeros — the
zero amount is not dropped. -/
theorem C2_counterexample :
    ((parse_cnab240_content exC2Bytes).map fun res =>
      res.receivables.map Receivable.face_value) = some [0] := by decide

def exC2Recv : Receivable := { face_value := 5, source := "csv" }

def exC2ZeroRecv : Receivable :=
  { face_value := 0, status := "pending", source := "cnab240" }

unseal Rat.mul Rat.add Rat.sub Rat.inv in
/-- C2 witness: the amended theorem applied to a one-row tabular input
(positive face value) and to the zero-face CNAB 240 input. -/
theorem C2_witness :
    0 < exC2Recv.face_value ∧ 0 ≤ exC2ZeroRecv.face_value :=
  ⟨C2_face_value_signs.1 [("value", [0])] [["5"]] "csv" "receivable"
      ⟨[exC2Recv], [], []⟩ (by decide) exC2Recv (by decide),
    C2_face_value_signs.2.1 exC2Bytes ⟨[exC2ZeroRecv], [], []⟩ (by decide)
      exC2ZeroRecv (by decide)⟩

/-! ## C7: the role-ambiguous header threshold is strict -/

/-- Header containing a role-ambiguous business token and none of the
higher-priority name / identifier / value / date tokens. -/
def ambiguousOnlyHeader (header : String) : Prop :=
  (["nome", "name", "razao", "razão"].any
      (pyContainsS (pyStripS (pyLowerS header)) ·) = false) ∧
  (["cnpj", "cpf", "documento", "doc"].any
      (pyContainsS (pyStripS (pyLowerS header)) ·) = false) ∧
  (VALUE_HINTS.any (pyContainsS (pyStripS (pyLowerS header)) ·) = false) ∧
  (DATE_HINTS.any (pyContainsS (pyStripS (pyLowerS header)) ·) = false) ∧
  (["sacado", "pagador", "cedente", "devedor"].any
      (pyContainsS (pyStripS (pyLowerS header)) ·) = true)

instance (header : String) : Decidable (ambiguousOnlyHeader header) := by
  unfold ambiguousOnlyHeader; infer_instance

/-- C7 (amended): for a header carrying only a role-ambiguous business
token, the classifier returns the identifier role exactly when STRICTLY
more than 30% of the non-empty samples match an identifier pattern; at 30%
or below — including exactly 30% — it returns the name role. -/
theorem C7_ambiguous_role_threshold (header : String) (samples : List String)
    (h : ambiguousOnlyHeader header) :
    (detect_column_type header samples = "cnpj" ↔
      3 * (samples.filter fun v => v ≠ "" ∧ pyStripS v ≠ "").length <
        10 * ((samples.filter fun v => v ≠ "" ∧ pyStripS v ≠ "").filter
          checkIdentifierSample).length) ∧
    (10 * ((samples.filter fun v => v ≠ "" ∧ pyStripS v ≠ "").filter
          checkIdentifierSample).length ≤
        3 * (samples.filter fun v => v ≠ "" ∧ pyStripS v ≠ "").length →
      detect_column_type header samples = "name") := by
  obtain ⟨h1, h2, h3, h4, h5⟩ := h
  set non_empty := samples.filter fun v => v ≠ "" ∧ pyStripS v ≠ "" with hne
  set n := non_empty.length with hn
  set cnt := (non_empty.filter checkIdentifierSample).length with hcnt
  have hd : detect_column_type header samples =
      (if ((cnt : ℚ)) > (n : ℚ) * (3 / 10) then "cnpj" else "name") := by
    unfold detect_column_type
    rw [if_neg (by simp [h1]), if_neg (by simp [h2]), if_neg (by simp [h3]),
      if_neg (by simp [h4]), if_pos (by simp [h5])]
  have harith : ((n : ℚ) * (3 / 10) < (cnt : ℚ)) ↔ 3 * n < 10 * cnt := by
    constructor
    · intro hlt
      have h10 : ((3 * n : Nat) : ℚ) < ((10 * cnt : Nat) : ℚ) := by
        push_cast
        linarith
      exact_mod_cast h10
    · intro hlt
      have h10 : ((3 * n : Nat) : ℚ) < ((10 * cnt : Nat) : ℚ) := by
        exact_mod_cast hlt
      push_cast at h10
      linarith
  refine ⟨?_, ?_⟩
  · rw [hd]
    by_cases hc : ((cnt : ℚ)) > (n : ℚ) * (3 / 10)
    · rw [if_pos hc]
      exact ⟨fun _ => harith.1 hc, fun _ => rfl⟩
    · rw [if_neg hc]
      exact ⟨fun hh => absurd hh (by decide),
        fun h31 => absurd (harith.2 h31) hc⟩
  · intro hle
    rw [hd, if_neg fun hc => absurd (harith.1 hc) (by omega)]

/-- Ten samples of which exactly three (30%) match the CPF pattern. -/
def exC7Samples : List String :=
  ["123.456.789-01", "123.456.789-01", "123.456.789-01",
   "x", "x", "x", "x", "x", "x", "x"]

unseal Rat.mul Rat.add Rat.sub Rat.inv in
/-- C7 counterexample: with a role-ambiguous header and exactly 30% of the
(all non-empty) samples matching an identifier pattern, the classifier
returns the name role, not the identifier role the claim requires. -/
theorem C7_counterexample :
    (exC7Samples.filter fun v => v ≠ "" ∧ pyStripS v ≠ "") = exC7Samples ∧
    10 * (exC7Samples.filter checkIdentifierSample).length =
      3 * exC7Samples.length ∧
    detect_column_type "sacado" exC7Samples = "name" := by decide

/-- Ten samples of which four (40% > 30%) match the CPF pattern. -/
def exC7WitnessSamples : List String :=
  ["123.456.789-01", "123.456.789-01", "123.456.789-01", "123.456.789-01",
   "x", "x", "x", "x", "x", "x"]

unseal Rat.mul Rat.add Rat.sub Rat.inv in
/-- C7 witness: the amended theorem applied to the header "sacado" with 40%
identifier samples (classified "cnpj") and to the 30% sample list
(classified "name"). -/
theorem C7_witness :
    detect_column_type "sacado" exC7WitnessSamples = "cnpj" ∧
    detect_column_type "sacado" exC7Samples = "name" :=
  ⟨(C7_ambiguous_role_threshold "sacado" exC7WitnessSamples (by decide)).1.mpr
      (by decide),
    (C7_ambiguous_role_threshold "sacado" exC7Samples (by decide)).2
      (by decide)⟩

/-! ## C4: order-independence of the greedy matching -/

def candConf (c : Cand) : Nat := c.2.2

theorem potential_matches_perm {rs1 rs2 : List Receivable}
    {ps1 ps2 : List Payment} (hr : rs1.Perm rs2) (hp : ps1.Perm ps2) :
    (potential_matches rs1 ps1).Perm (potential_matches rs2 ps2) := by
  unfold potential_matches
  refine List.Perm.trans (hr.flatMap_right _) (List.Perm.flatMap_left _ ?_)
  intro r _
  exact hp.filterMap _

/-- Two sorted permutations of the same candidate list agree when no two
candidates share a confidence score. -/
theorem sorted_perm_eq_of_nodup_conf :
    ∀ {l1 l2 : List Cand}, l1.Perm l2 → l1.Sorted confGe → l2.Sorted confGe →
      (l1.map candConf).Nodup → l1 = l2 := by
  intro l1
  induction l1 with
  | nil =>
    intro l2 hperm _ _ _
    exact (hperm.symm.eq_nil).symm
  | cons a t1 ih =>
    intro l2 hperm hs1 hs2 hnd
    cases l2 with
    | nil => exact absurd hperm.eq_nil (by simp)
    | cons b t2 =>
      have hab : a = b := by
        by_contra hne
        have hbt1 : b ∈ t1 := by
          rcases List.mem_cons.1 (hperm.mem_iff.2 (List.mem_cons_self b t2))
            with h | h
          · exact absurd h.symm hne
          · exact h
        have hat2 : a ∈ t2 := by
          rcases List.mem_cons.1 (hperm.mem_iff.1 (List.mem_cons_self a t1))
            with h | h
          · exact absurd h hne
          · exact h
        have h1 : candConf b ≤ candConf a := (List.sorted_cons.1 hs1).1 b hbt1
        have h2 : candConf a ≤ candConf b := (List.sorted_cons.1 hs2).1 a hat2
        have heq : candConf a = candConf b := Nat.le_antisymm h2 h1
        exact (List.nodup_cons.1 hnd).1
          (heq ▸ List.mem_map_of_mem candConf hbt1)
      subst hab
      have ht : t1 = t2 :=
        ih hperm.cons_inv (List.sorted_cons.1 hs1).2 (List.sorted_cons.1 hs2).2
          (List.nodup_cons.1 hnd).2
      rw [ht]

/-- C4 (amended): permuting the receivable and payment input lists leaves
the match list — hence the match count and the total confidence score —
unchanged PROVIDED no two surviving candidate pairs share a confidence
score; with tied scores the greedy walk can claim different pairs and the
count and sum may change (see the counterexample). -/
theorem C4_perm_invariant_distinct_scores (rs1 rs2 : List Receivable)
    (ps1 ps2 : List Payment) (hr : rs1.Perm rs2) (hp : ps1.Perm ps2)
    (hconf : ((potential_matches rs1 ps1).map candConf).Nodup) :
    conciliation_matches rs1 ps1 = conciliation_matches rs2 ps2 ∧
    (conciliation_matches rs1 ps1).length =
      (conciliation_matches rs2 ps2).length ∧
    ((conciliation_matches rs1 ps1).map MatchEntry.confidence).sum =
      ((conciliation_matches rs2 ps2).map MatchEntry.confidence).sum := by
  have hpm := potential_matches_perm hr hp
  have hs : sorted_matches rs1 ps1 = sorted_matches rs2 ps2 := by
    apply sorted_perm_eq_of_nodup_conf
    · exact (List.perm_insertionSort _ _).trans
        (hpm.trans (List.perm_insertionSort _ _).symm)
    · exact List.sorted_insertionSort _ _
    · exact List.sorted_insertionSort _ _
    · exact (((List.perm_insertionSort confGe _).map candConf).nodup_iff).2 hconf
  unfold conciliation_matches
  rw [hs]
  exact ⟨rfl, rfl, rfl⟩

def exC4r1 : Receivable := { id := "r1", face_value := 108 }

def exC4r2 : Receivable := { id := "r2", face_value := 100 }

def exC4p1 : Payment := { id := "p1", amount := 104 }

def exC4p2 : Payment := { id := "p2", amount := 112 }

unseal Rat.mul Rat.add Rat.sub Rat.inv in
/-- C4 counterexample: with the three surviving pairs all tied at score 15,
swapping the order of the two receivables changes the greedy result from
one match (total confidence 15) to two matches (total confidence 30). -/
theorem C4_counterexample :
    [exC4r2, exC4r1].Perm [exC4r1, exC4r2] ∧
    (conciliation_matches [exC4r1, exC4r2] [exC4p1, exC4p2]).length = 1 ∧
    (conciliation_matches [exC4r2, exC4r1] [exC4p1, exC4p2]).length = 2 ∧
    ((conciliation_matches [exC4r1, exC4r2] [exC4p1, exC4p2]).map
      MatchEntry.confidence).sum = 15 ∧
    ((conciliation_matches [exC4r2, exC4r1] [exC4p1, exC4p2]).map
      MatchEntry.confidence).sum = 30 := by
  refine ⟨List.Perm.swap exC4r1 exC4r2 [], ?_, ?_, ?_, ?_⟩ <;> decide

def exC4ra : Receivable := { id := "ra", face_value := 100 }

def exC4rb : Receivable := { id := "rb", face_value := 200 }

def exC4pa : Payment := { id := "pa", amount := 100 }

def exC4pb : Payment := { id := "pb", amount := 205 }

unseal Rat.mul Rat.add Rat.sub Rat.inv in
/-- C4 witness: the amended theorem applied to a concrete instance whose
two surviving pairs score 40 and 15 (pairwise distinct), under a swap of
both input lists. -/
theorem C4_witness :
    conciliation_matches [exC4ra, exC4rb] [exC4pa, exC4pb] =
      conciliation_matches [exC4rb, exC4ra] [exC4pb, exC4pa] :=
  (C4_perm_invariant_distinct_scores [exC4ra, exC4rb] [exC4rb, exC4ra]
    [exC4pa, exC4pb] [exC4pb, exC4pa]
    (List.Perm.swap exC4rb exC4ra [])
    (List.Perm.swap exC4pb exC4pa [])
    (by decide)).1
